import Mathlib

/-!
Shallow embedding of the string-analyzer HTTP service
(analyzer, content-addressed store, filter engine, natural-language
filter parser, and route dispatch), translated from the JavaScript
sources `src/storage.js`, `src/server.js`, `src/unnamed/part_000`
(analyzer), `src/unnamed/part_001` (storage) and `src/unnamed/part_002`
(the server variant exported for the test suite).

JavaScript strings are modelled as lists of Unicode code points
(`List Char`), which is exactly what `for (const ch of value)`
iterates; `String.prototype.length` (UTF-16 code units) is recovered
by `jsLength`.  `String.prototype.toLowerCase` is modelled by
`Char.toLower`, its ASCII case mapping: every pattern the service
matches is ASCII, as are all concrete inputs considered here.
The SHA-256 digest is kept abstract: every operation that hashes is
parameterised by a function `hash : JStr → JStr`, since no property of
the service depends on anything beyond the hash being a function of
the value.
-/

namespace SAS

/-- A JavaScript string, as the sequence of Unicode code points that
`for..of` iteration yields. -/
abbrev JStr := List Char

/-- Number of UTF-16 code units a single code point occupies. -/
def utf16Width (c : Char) : Nat := if 65536 ≤ c.toNat then 2 else 1

/-- `value.length` in JavaScript: total number of UTF-16 code units. -/
def jsLength (s : JStr) : Nat := (s.map utf16Width).sum

/-- ASCII model of `String.prototype.toLowerCase`. -/
def jsLower (s : JStr) : JStr := s.map Char.toLower

/-- The character class `[a-z0-9]` of the palindrome-normalization regex. -/
def lowerAlnum (c : Char) : Bool := ('a' ≤ c && c ≤ 'z') || ('0' ≤ c && c ≤ '9')

/-- `normalizeForPalindrome` from the analyzer:
`str.toLowerCase().replace(/[^a-z0-9]/g, '')`. -/
def normalizeForPalindrome (s : JStr) : JStr := (jsLower s).filter lowerAlnum

/-- One step of the frequency-map loop:
`map[c] = (map[c] || 0) + 1`, keeping object keys in first-insertion order. -/
def bumpChar : List (Char × Nat) → Char → List (Char × Nat)
  | [], c => [(c, 1)]
  | (k, n) :: rest, c => if k = c then (k, n + 1) :: rest else (k, n) :: bumpChar rest c

/-- `character_frequency_map`: the `for (const char of value)` loop of the analyzer. -/
def charFreqMap (s : JStr) : List (Char × Nat) := s.foldl bumpChar []

/-- Sum of all occurrence counts recorded in a frequency map. -/
def freqTotal (m : List (Char × Nat)) : Nat := (m.map (fun kv => kv.2)).sum

/-- `map[c]` with JavaScript falsiness collapsed: a missing key reads as 0. -/
def freqGet : List (Char × Nat) → Char → Nat
  | [], _ => 0
  | (k, n) :: rest, c => if k = c then n else freqGet rest c

/-- The ASCII portion of the regex class `\s` (and of `String.prototype.trim`). -/
def jsWhitespace (c : Char) : Bool :=
  c = ' ' || c = '\t' || c = '\n' || c = '\r' || c = Char.ofNat 11 || c = Char.ofNat 12

/-- `value.trim()`. -/
def jsTrim (s : JStr) : JStr :=
  ((s.dropWhile jsWhitespace).reverse.dropWhile jsWhitespace).reverse

/-- Number of maximal runs of non-whitespace characters; for a trimmed
non-empty string this equals `trimmed.split(/\s+/).length`. -/
def wordsAux : JStr → Bool → Nat
  | [], _ => 0
  | c :: rest, inWord =>
    if jsWhitespace c then wordsAux rest false
    else (if inWord then 0 else 1) + wordsAux rest true

/-- `word_count`: `trimmed.length > 0 ? trimmed.split(/\s+/).length : 0`. -/
def jsWordCount (s : JStr) : Nat :=
  let t := jsTrim s
  if t.isEmpty then 0 else wordsAux t false

/-- The property bundle the analyzer computes for a string. -/
structure Props where
  length : Nat
  is_palindrome : Bool
  unique_characters : Nat
  word_count : Nat
  sha256_hash : JStr
  character_frequency_map : List (Char × Nat)
deriving DecidableEq, Repr

/-- `analyzeString` from the analyzer module, parameterised by the
SHA-256 hex digest function. -/
def analyzeString (hash : JStr → JStr) (value : JStr) : Props :=
  { length := jsLength value
    is_palindrome := normalizeForPalindrome value == (normalizeForPalindrome value).reverse
    unique_characters := (charFreqMap value).length
    word_count := jsWordCount value
    sha256_hash := hash value
    character_frequency_map := charFreqMap value }

/-- A stored record: `{ id, value, properties, created_at }`; the
ISO timestamp is abstracted to the instant `now` the store receives. -/
structure Entry where
  id : JStr
  value : JStr
  properties : Props
  created_at : Nat
deriving DecidableEq, Repr

/-- The in-memory `dataStore` object: hash-keyed, insertion-ordered. -/
abbrev Store := List (JStr × Entry)

/-- `dataStore[id]` as a lookup. -/
def storeLookup (st : Store) (id : JStr) : Option Entry :=
  match st with
  | [] => none
  | (k, e) :: rest => if k = id then some e else storeLookup rest id

/-- `create(id, data)` from `src/storage.js`: rejects a falsy id, rejects a
duplicate id, otherwise inserts `{ id, value, properties, created_at }`. -/
def create (id : JStr) (data : JStr × Props) (now : Nat) (st : Store) :
    Option Entry × Store :=
  if id = [] then (none, st)
  else
    match storeLookup st id with
    | some _ => (none, st)
    | none => ((some ⟨id, data.1, data.2, now⟩), st ++ [(id, ⟨id, data.1, data.2, now⟩)])

/-- `getAll()`: `Object.values(dataStore)` in insertion order. -/
def getAll (st : Store) : List Entry := st.map (fun kv => kv.2)

/-- `deleteById(id)`. -/
def deleteById (st : Store) (id : JStr) : Bool × Store :=
  match storeLookup st id with
  | none => (false, st)
  | some _ => (true, st.filter (fun kv => !(kv.1 == id)))

/-- The sparse predicate set shared by the structured filter endpoint and
the natural-language parser (`filtersApplied` / `parsedFilters`).  The
numeric fields are JavaScript numbers, modelled as integers. -/
structure Filters where
  is_palindrome : Option Bool
  min_length : Option Int
  max_length : Option Int
  word_count : Option Int
  contains_character : Option Char
deriving DecidableEq, Repr

/-- The predicate set with no field present. -/
def emptyFilters : Filters := ⟨none, none, none, none, none⟩

/-- `is_palindrome` check of the filter loop: absent passes, present must
equal the stored boolean exactly. -/
def passPal : Option Bool → Bool → Bool
  | none, _ => true
  | some b, v => v == b

/-- `min_length` check: `p.length < filters.min_length` rejects. -/
def passMin : Option Int → Nat → Bool
  | none, _ => true
  | some m, len => !(decide ((len : Int) < m))

/-- `max_length` check: `p.length > filters.max_length` rejects. -/
def passMax : Option Int → Nat → Bool
  | none, _ => true
  | some m, len => !(decide (m < (len : Int)))

/-- `word_count` check: exact equality. -/
def passWc : Option Int → Nat → Bool
  | none, _ => true
  | some w, wc => decide ((wc : Int) = w)

/-- `contains_character` check: `!p.character_frequency_map[char]` rejects,
i.e. the character must have a non-zero count. -/
def passCc : Option Char → List (Char × Nat) → Bool
  | none, _ => true
  | some c, m => !(freqGet m c == 0)

/-- The record filter shared verbatim by `GET /strings` and the
natural-language endpoint (a conjunction of early-return checks). -/
def matchesFilters (f : Filters) (p : Props) : Bool :=
  passPal f.is_palindrome p.is_palindrome &&
  passMin f.min_length p.length &&
  passMax f.max_length p.length &&
  passWc f.word_count p.word_count &&
  passCc f.contains_character p.character_frequency_map

/-- Does `pat` occur at the very start of `s`? -/
def startsWith : JStr → JStr → Bool
  | [], _ => true
  | _ :: _, [] => false
  | p :: ps, c :: cs => p == c && startsWith ps cs

/-- `lowerQuery.includes(pat)`: does `pat` occur anywhere in `s`? -/
def containsSub (pat : JStr) : JStr → Bool
  | [] => startsWith pat []
  | c :: rest => startsWith pat (c :: rest) || containsSub pat rest

/-- Literal "palindrome". -/
def palA : JStr := "palindrome".data

/-- Literal "palindromic". -/
def palB : JStr := "palindromic".data

/-- Literal "single word". -/
def singleWordKw : JStr := "single word".data

/-- Literal "one word". -/
def oneWordKw : JStr := "one word".data

/-- Literal "longer than". -/
def longerKw : JStr := "longer than".data

/-- Literal "shorter than". -/
def shorterKw : JStr := "shorter than".data

/-- Literal "contains". -/
def containsKw : JStr := "contains".data

/-- Literal "letter". -/
def letterKw : JStr := "letter".data

/-- Literal "first vowel". -/
def firstVowelKw : JStr := "first vowel".data

/-- Maximal leading run of `[0-9]` digits read as a decimal number
(`parseInt` applied to a `\d+` capture); `none` when no digit leads. -/
def readDigits (s : JStr) : Option Nat :=
  let ds := s.takeWhile Char.isDigit
  if ds.isEmpty then none else some (ds.foldl (fun n c => 10 * n + (c.toNat - 48)) 0)

/-- Consume the `\s+` of the regexes: at least one whitespace character,
then as many as follow. -/
def dropSpaces1 : JStr → Option JStr
  | [] => none
  | c :: rest => if jsWhitespace c then some (rest.dropWhile jsWhitespace) else none

/-- Try `pat` + `\s+` + `(\d+)` anchored at the start of `s`. -/
def matchNumAt (pat : JStr) (s : JStr) : Option Nat :=
  if startsWith pat s then (dropSpaces1 (s.drop pat.length)).bind readDigits else none

/-- Leftmost match of `pat\s+(\d+)` in `s`, returning the captured number:
the behaviour of `s.match(/pat\s+(\d+)/)`. -/
def matchThanNum (pat : JStr) : JStr → Option Nat
  | [] => none
  | c :: rest => (matchNumAt pat (c :: rest)).orElse (fun _ => matchThanNum pat rest)

/-- The class `[a-z0-9]` of the contains-character capture. -/
def headAlnum : JStr → Option Char
  | [] => none
  | c :: _ => if lowerAlnum c then some c else none

/-- Try one keyword + `\s+` + `([a-z0-9])` anchored at the start of `s`. -/
def matchCharAt (pat : JStr) (s : JStr) : Option Char :=
  if startsWith pat s then (dropSpaces1 (s.drop pat.length)).bind headAlnum else none

/-- Leftmost match of `(?:contains|letter)\s+([a-z0-9])`, returning the
captured character. -/
def matchCharAfter : JStr → Option Char
  | [] => none
  | c :: rest =>
    ((matchCharAt containsKw (c :: rest)).orElse
      (fun _ => matchCharAt letterKw (c :: rest))).orElse
      (fun _ => matchCharAfter rest)

/-- Parser rule 1: "palindrome" / "palindromic" present sets
`is_palindrome = true`. -/
def stepPal (lq : JStr) (f : Filters) : Filters :=
  if containsSub palA lq || containsSub palB lq then
    { f with is_palindrome := some true }
  else f

/-- Parser rule 2: "single word" / "one word" present sets `word_count = 1`. -/
def stepWord (lq : JStr) (f : Filters) : Filters :=
  if containsSub singleWordKw lq || containsSub oneWordKw lq then
    { f with word_count := some 1 }
  else f

/-- Parser rule 3: `longer than\s+(\d+)` sets `min_length = N + 1`. -/
def stepLonger (lq : JStr) (f : Filters) : Filters :=
  match matchThanNum longerKw lq with
  | some n => { f with min_length := some ((n : Int) + 1) }
  | none => f

/-- Parser rule 4: `shorter than\s+(\d+)` sets `max_length = N - 1`. -/
def stepShorter (lq : JStr) (f : Filters) : Filters :=
  match matchThanNum shorterKw lq with
  | some n => { f with max_length := some ((n : Int) - 1) }
  | none => f

/-- Parser rule 5: `(?:contains|letter)\s+([a-z0-9])` sets
`contains_character` to the captured character. -/
def stepContains (lq : JStr) (f : Filters) : Filters :=
  match matchCharAfter lq with
  | some c => { f with contains_character := some c }
  | none => f

/-- Parser rule 6: "first vowel" present overwrites
`contains_character = 'a'`. -/
def stepVowel (lq : JStr) (f : Filters) : Filters :=
  if containsSub firstVowelKw lq then { f with contains_character := some 'a' }
  else f

/-- The rule-based natural-language parser of the filter endpoint in
`src/unnamed/part_002`: lowercase the query, then apply the six rules
in source order, each overwriting its own field. -/
def parseNL (q : JStr) : Filters :=
  stepVowel (jsLower q)
    (stepContains (jsLower q)
      (stepShorter (jsLower q)
        (stepLonger (jsLower q)
          (stepWord (jsLower q)
            (stepPal (jsLower q) emptyFilters)))))

/-- The conflict validation of `src/unnamed/part_002`:
`parsedFilters.min_length && parsedFilters.max_length && min > max`,
with JavaScript truthiness (a number is falsy exactly when it is 0). -/
def nlConflict (f : Filters) : Bool :=
  match f.min_length, f.max_length with
  | some a, some b => !(a == 0) && !(b == 0) && decide (b < a)
  | _, _ => false

/-- HTTP responses of the service, one constructor per response shape. -/
inductive Resp where
  | err (status : Nat) (msg : JStr)
  | okList (status : Nat) (data : List Entry) (count : Nat) (filters : Filters)
  | okNL (status : Nat) (data : List Entry) (count : Nat) (original : JStr)
      (filters : Filters)
  | okEntry (status : Nat) (e : Entry)
  | noContent
deriving DecidableEq, Repr

/-- Error payload of the missing-query branch. -/
def missingQueryMsg : JStr := "Missing \"query\" parameter for natural language filtering".data

/-- Error payload of the 422 conflicting-range branch. -/
def conflictMsg : JStr := "Query parsed but resulted in conflicting length filters".data

/-- Error payload of the 409 duplicate branch of `POST /strings`. -/
def existsMsg : JStr := "String already exists in the system".data

/-- `GET /strings/filter-by-natural-language` from `src/unnamed/part_002`,
as a state-passing function: `!query` (absent or empty) is 400, a
truthy conflicting range is 422, otherwise the parsed predicate set is
run through the shared record filter. -/
def nlHandler (st : Store) (query : Option JStr) : Resp × Store :=
  match query with
  | none => (.err 400 missingQueryMsg, st)
  | some q =>
    if q.isEmpty then (.err 400 missingQueryMsg, st)
    else
      if nlConflict (parseNL q) then (.err 422 conflictMsg, st)
      else
        ((.okNL 200 ((getAll st).filter (fun e => matchesFilters (parseNL q) e.properties))
          ((getAll st).filter (fun e => matchesFilters (parseNL q) e.properties)).length
          q (parseNL q)), st)

/-- `parseInt(s, 10)`: skip leading whitespace, read an optional sign and
a maximal run of decimal digits; `none` is `NaN`. -/
def jsParseInt (s : JStr) : Option Int :=
  match s.dropWhile jsWhitespace with
  | '-' :: rest => (readDigits rest).map (fun n => -(n : Int))
  | '+' :: rest => (readDigits rest).map (fun n => (n : Int))
  | t => (readDigits t).map (fun n => (n : Int))

/-- The raw query parameters of `GET /strings`, each an optional string. -/
structure QueryParams where
  is_palindrome : Option JStr
  min_length : Option JStr
  max_length : Option JStr
  word_count : Option JStr
  contains_character : Option JStr
deriving DecidableEq, Repr

/-- Validation message for `is_palindrome`. -/
def palMsg : JStr := "is_palindrome must be \"true\" or \"false\"".data

/-- Validation message for `min_length`. -/
def minMsg : JStr := "min_length must be a positive integer".data

/-- Validation message for `max_length`. -/
def maxMsg : JStr := "max_length must be a positive integer".data

/-- Validation message for `word_count`. -/
def wcMsg : JStr := "word_count must be a positive integer".data

/-- Validation message for `contains_character`. -/
def ccMsg : JStr := "contains_character must be a single character string".data

/-- Prefix the handler adds to a thrown validation message. -/
def invalidPre : JStr := "Invalid query parameter: ".data

/-- Literal "true". -/
def trueTok : JStr := "true".data

/-- Literal "false". -/
def falseTok : JStr := "false".data

/-- One numeric parameter check of `GET /strings`:
`isNaN(parseInt(v)) || parseInt(v) < 0` throws the field message. -/
def checkNum (msg : JStr) : Option JStr → Except JStr (Option Int)
  | none => .ok none
  | some s =>
    match jsParseInt s with
    | none => .error msg
    | some n => if n < 0 then .error msg else .ok (some n)

/-- The `is_palindrome` parameter check. -/
def checkPal : Option JStr → Except JStr (Option Bool)
  | none => .ok none
  | some s =>
    if s = trueTok then .ok (some true)
    else if s = falseTok then .ok (some false)
    else .error palMsg

/-- The `contains_character` parameter check: exactly one character. -/
def checkCc : Option JStr → Except JStr (Option Char)
  | none => .ok none
  | some [c] => .ok (some c)
  | some _ => .error ccMsg

/-- The try-block of `GET /strings`: parameters validated in source
order, the first failure winning. -/
def validateFilters (qp : QueryParams) : Except JStr Filters :=
  (checkPal qp.is_palindrome).bind fun ip =>
  (checkNum minMsg qp.min_length).bind fun mn =>
  (checkNum maxMsg qp.max_length).bind fun mx =>
  (checkNum wcMsg qp.word_count).bind fun wc =>
  (checkCc qp.contains_character).map fun cc =>
  ⟨ip, mn, mx, wc, cc⟩

/-- `GET /strings` as a state-passing function: a validation failure is a
400 naming the field, otherwise the store is filtered. -/
def getStrings (st : Store) (qp : QueryParams) : Resp × Store :=
  match validateFilters qp with
  | .error m => (.err 400 (invalidPre ++ m), st)
  | .ok f =>
    ((.okList 200 ((getAll st).filter (fun e => matchesFilters f e.properties))
      ((getAll st).filter (fun e => matchesFilters f e.properties)).length f), st)

/-- `getById` as a state-passing operation (the handler only reads). -/
def getByIdOp (st : Store) (id : JStr) : Option Entry × Store :=
  (storeLookup st id, st)

/-- `getAll` as a state-passing operation. -/
def getAllOp (st : Store) : List Entry × Store := (getAll st, st)

/-- `POST /strings` after the body checks: analyze, hash, create; a
`null` from `create` is the 409 conflict. -/
def postStrings (hash : JStr → JStr) (value : JStr) (st : Store) (now : Nat) :
    Resp × Store :=
  match create (analyzeString hash value).sha256_hash
      (value, analyzeString hash value) now st with
  | (none, st2) => (.err 409 existsMsg, st2)
  | (some e, st2) => (.okEntry 201 e, st2)

/-- A segment of an Express route pattern: a literal or a `:param`. -/
inductive Seg where
  | lit (s : JStr)
  | param
deriving DecidableEq, Repr

/-- Names for the three GET routes under `/strings`. -/
inductive RouteId where
  | nlFilter
  | byValue
  | listAll
deriving DecidableEq, Repr

/-- Does a pattern match a path (segment lists)?  A `:param` matches any
single non-empty segment. -/
def matchPat : List Seg → List JStr → Bool
  | [], [] => true
  | Seg.lit x :: ps, y :: ys => x == y && matchPat ps ys
  | Seg.param :: ps, y :: ys => !y.isEmpty && matchPat ps ys
  | _, _ => false

/-- Express dispatch: the first registered route whose pattern matches
the request path handles the request. -/
def dispatch : List (List Seg × RouteId) → List JStr → Option RouteId
  | [], _ => none
  | (pat, rid) :: rest, path =>
    if matchPat pat path then some rid else dispatch rest path

/-- Literal path segment "strings". -/
def stringsSeg : JStr := "strings".data

/-- Literal path segment "filter-by-natural-language". -/
def nlSeg : JStr := "filter-by-natural-language".data

/-- Pattern of `GET /strings/:stringValue`. -/
def byValuePat : List Seg := [Seg.lit stringsSeg, Seg.param]

/-- Pattern of `GET /strings/filter-by-natural-language`. -/
def nlPat : List Seg := [Seg.lit stringsSeg, Seg.lit nlSeg]

/-- Pattern of `GET /strings`. -/
def listPat : List Seg := [Seg.lit stringsSeg]

/-- The GET routes of `src/unnamed/part_002` (the app the test suite
imports), in registration order: the natural-language route first. -/
def part002GetRoutes : List (List Seg × RouteId) :=
  [(nlPat, RouteId.nlFilter), (byValuePat, RouteId.byValue), (listPat, RouteId.listAll)]

/-- The GET routes of the stale variant `src/server.js`, in its
registration order: the parameterised route first. -/
def serverJsGetRoutes : List (List Seg × RouteId) :=
  [(byValuePat, RouteId.byValue), (listPat, RouteId.listAll), (nlPat, RouteId.nlFilter)]

/-- The path segments of `/strings/filter-by-natural-language`. -/
def nlPathSegs : List JStr := [stringsSeg, nlSeg]

/-! ### Helper lemmas -/

/-- Rule 3 never touches `word_count`. -/
lemma stepLonger_word (lq : JStr) (f : Filters) :
    (stepLonger lq f).word_count = f.word_count := by
  unfold stepLonger; split <;> rfl

/-- Rule 4 never touches `word_count`. -/
lemma stepShorter_word (lq : JStr) (f : Filters) :
    (stepShorter lq f).word_count = f.word_count := by
  unfold stepShorter; split <;> rfl

/-- Rule 5 never touches `word_count`. -/
lemma stepContains_word (lq : JStr) (f : Filters) :
    (stepContains lq f).word_count = f.word_count := by
  unfold stepContains; split <;> rfl

/-- Rule 6 never touches `word_count`. -/
lemma stepVowel_word (lq : JStr) (f : Filters) :
    (stepVowel lq f).word_count = f.word_count := by
  unfold stepVowel; split <;> rfl

/-- Rule 5 never touches `max_length`. -/
lemma stepContains_max (lq : JStr) (f : Filters) :
    (stepContains lq f).max_length = f.max_length := by
  unfold stepContains; split <;> rfl

/-- Rule 6 never touches `max_length`. -/
lemma stepVowel_max (lq : JStr) (f : Filters) :
    (stepVowel lq f).max_length = f.max_length := by
  unfold stepVowel; split <;> rfl

/-- When the shorter-than regex matches with number `n`, rule 4 writes
`max_length = n - 1`. -/
lemma stepShorter_set (lq : JStr) (f : Filters) (n : Nat)
    (h : matchThanNum shorterKw lq = some n) :
    (stepShorter lq f).max_length = some ((n : Int) - 1) := by
  simp [stepShorter, h]

/-- When "single word" or "one word" occurs, rule 2 writes `word_count = 1`. -/
lemma stepWord_set (lq : JStr) (f : Filters)
    (h : (containsSub singleWordKw lq || containsSub oneWordKw lq) = true) :
    (stepWord lq f).word_count = some 1 := by
  simp [stepWord, h]

/-- When the contains-character regex captures `c`, rule 5 writes
`contains_character = c`. -/
lemma stepContains_set (lq : JStr) (f : Filters) (c : Char)
    (h : matchCharAfter lq = some c) :
    (stepContains lq f).contains_character = some c := by
  simp [stepContains, h]

/-- When "first vowel" does not occur, rule 6 leaves `contains_character`
alone. -/
lemma stepVowel_cc (lq : JStr) (f : Filters)
    (h : containsSub firstVowelKw lq = false) :
    (stepVowel lq f).contains_character = f.contains_character := by
  simp [stepVowel, h]

/-- Bumping one character raises the total frequency count by one. -/
lemma freqTotal_bump (m : List (Char × Nat)) (c : Char) :
    freqTotal (bumpChar m c) = freqTotal m + 1 := by
  induction m with
  | nil => rfl
  | cons kv rest ih =>
    obtain ⟨k, n⟩ := kv
    by_cases h : k = c
    · simp [bumpChar, h, freqTotal]
      omega
    · simp [bumpChar, h, freqTotal] at ih ⊢
      omega

/-- The frequency-map fold raises the total by the number of characters
consumed. -/
lemma freqTotal_foldl (s : JStr) :
    ∀ m, freqTotal (s.foldl bumpChar m) = freqTotal m + s.length := by
  induction s with
  | nil => intro m; simp
  | cons c t ih =>
    intro m
    simp [List.foldl_cons, ih, freqTotal_bump]
    omega

/-- The total of the analyzer's frequency map is the number of code
points of the input. -/
lemma freqTotal_charFreqMap (s : JStr) : freqTotal (charFreqMap s) = s.length := by
  have h := freqTotal_foldl s []
  simpa [charFreqMap, freqTotal] using h

/-- UTF-16 length decomposes as code points plus astral code points. -/
lemma jsLength_split (s : JStr) :
    jsLength s = s.length + (s.filter (fun c => decide (65536 ≤ c.toNat))).length := by
  induction s with
  | nil => rfl
  | cons c t ih =>
    by_cases h : 65536 ≤ c.toNat
    · simp [jsLength, utf16Width, h] at ih ⊢
      omega
    · simp [jsLength, utf16Width, h] at ih ⊢
      omega

/-- A fresh append is found by a lookup that previously missed. -/
lemma storeLookup_append_self (st : Store) (id : JStr) (e : Entry)
    (h : storeLookup st id = none) :
    storeLookup (st ++ [(id, e)]) id = some e := by
  induction st with
  | nil => simp [storeLookup]
  | cons kv rest ih =>
    obtain ⟨k, e0⟩ := kv
    by_cases hk : k = id
    · simp [storeLookup, hk] at h
    · simp [storeLookup, hk] at h ⊢
      exact ih h

/-- No property bundle passes both `min_length = 11` and `max_length = 0`. -/
lemma unsat_eleven_zero (p : Props) :
    matchesFilters (Filters.mk none (some 11) (some 0) none none) p = false := by
  simp only [matchesFilters, passPal, passMin, passMax, passWc, passCc]
  by_cases h : (p.length : Int) < 11
  · simp [h]
  · have h0 : (0 : Int) < (p.length : Int) := by omega
    simp [h, h0]

/-! ### Claim theorems -/

/-- C1: In the app the repository exports for its tests
(`src/unnamed/part_002`), the natural-language filter route is
registered before the `/strings/:stringValue` route, so a request for
`/strings/filter-by-natural-language` dispatches to the
natural-language handler even though the by-value pattern would also
match the path; with a non-empty, non-conflicting query the handler
answers with the `{ data, count, interpreted_query }` shape over an
untouched store. -/
theorem C1_route_precedence :
    dispatch part002GetRoutes nlPathSegs = some RouteId.nlFilter ∧
    matchPat byValuePat nlPathSegs = true ∧
    (∀ (st : Store) (q : JStr), q ≠ [] → nlConflict (parseNL q) = false →
      nlHandler st (some q) =
        (Resp.okNL 200
          ((getAll st).filter (fun e => matchesFilters (parseNL q) e.properties))
          ((getAll st).filter (fun e => matchesFilters (parseNL q) e.properties)).length
          q (parseNL q), st)) := by
  refine ⟨by decide, by decide, ?_⟩
  intro st q hq hc
  have hne : q.isEmpty = false := by
    cases q with
    | nil => exact absurd rfl hq
    | cons a t => rfl
  simp [nlHandler, hne, hc]

/-- C1 witness: the query "palindrome" on the empty store. -/
theorem C1_route_precedence_witness :
    nlHandler [] (some palA) =
      (Resp.okNL 200
        ((getAll ([] : Store)).filter (fun e => matchesFilters (parseNL palA) e.properties))
        ((getAll ([] : Store)).filter (fun e => matchesFilters (parseNL palA) e.properties)).length
        palA (parseNL palA), ([] : Store)) :=
  C1_route_precedence.2.2 [] palA (by decide) (by decide)

/-- The query "longer than 10 and shorter than 1". -/
def zeroMaxQ : JStr := "longer than 10 and shorter than 1".data

/-- The query "longer than 10 and shorter than 5". -/
def conflictQ : JStr := "longer than 10 and shorter than 5".data

/-- C2 (code bug): the parser derives `min_length = 11` and
`max_length = 0` from "longer than 10 and shorter than 1", but the
conflict validation of `src/unnamed/part_002` tests the fields with
JavaScript truthiness, so the 0 is treated as absent: instead of the
422 unsatisfiable-range error, every store gets a 200 with an empty
result set.  For comparison, "longer than 10 and shorter than 5"
(max 4, truthy) is rejected with 422 as the claim demands. -/
theorem C2_truthiness_skips_conflict :
    (parseNL zeroMaxQ).min_length = some 11 ∧
    (parseNL zeroMaxQ).max_length = some 0 ∧
    (∀ st : Store, nlHandler st (some zeroMaxQ) =
      (Resp.okNL 200 [] 0 zeroMaxQ (parseNL zeroMaxQ), st)) ∧
    (∀ st : Store, nlHandler st (some conflictQ) = (Resp.err 422 conflictMsg, st)) := by
  refine ⟨by decide, by decide, ?_, ?_⟩
  · intro st
    have hps : parseNL zeroMaxQ = Filters.mk none (some 11) (some 0) none none := by decide
    have hnil : (getAll st).filter (fun e => matchesFilters (parseNL zeroMaxQ) e.properties) = [] := by
      rw [hps]
      refine List.filter_eq_nil_iff.mpr ?_
      intro e he
      simp [unsat_eleven_zero]
    have hne : zeroMaxQ.isEmpty = false := by decide
    have hcf : nlConflict (parseNL zeroMaxQ) = false := by decide
    simp [nlHandler, hne, hcf, hnil]
  · intro st
    have hne : conflictQ.isEmpty = false := by decide
    have hcf : nlConflict (parseNL conflictQ) = true := by decide
    simp [nlHandler, hne, hcf]

/-- C3: whenever the lowercased query matches `shorter than\s+(\d+)`
with captured number `n`, the parser's predicate set carries
`max_length = n - 1` (no later rule touches that field). -/
theorem C3_shorter_sets_max (q : JStr) (n : Nat)
    (h : matchThanNum shorterKw (jsLower q) = some n) :
    (parseNL q).max_length = some ((n : Int) - 1) := by
  unfold parseNL
  rw [stepVowel_max, stepContains_max]
  exact stepShorter_set _ _ n h

/-- The query "shorter than 5". -/
def shorterWitQ : JStr := "shorter than 5".data

/-- C3 witness: "shorter than 5" yields `max_length = 4`. -/
theorem C3_shorter_sets_max_witness :
    (parseNL shorterWitQ).max_length = some ((5 : Int) - 1) :=
  C3_shorter_sets_max shorterWitQ 5 (by decide)

/-- The empty string. -/
def emptyVal : JStr := "".data

/-- The string "Madam". -/
def madamVal : JStr := "Madam".data

/-- The spec's canal-of-Panama palindrome example. -/
def panamaVal : JStr := "A man, a plan, a canal: Panama".data

/-- The string "hello". -/
def helloVal : JStr := "hello".data

/-- C4: `is_palindrome` is true exactly when the normalization
(lowercase, then keep only `[a-z0-9]`) equals its own reverse; the
empty normalization is a palindrome, so the four spec examples come
out true, true, true, false. -/
theorem C4_palindrome_normalization :
    (∀ (hash : JStr → JStr) (s : JStr),
      (analyzeString hash s).is_palindrome = true ↔
        normalizeForPalindrome s = (normalizeForPalindrome s).reverse) ∧
    (∀ hash : JStr → JStr,
      (analyzeString hash emptyVal).is_palindrome = true ∧
      (analyzeString hash madamVal).is_palindrome = true ∧
      (analyzeString hash panamaVal).is_palindrome = true ∧
      (analyzeString hash helloVal).is_palindrome = false) := by
  constructor
  · intro hash s
    simp [analyzeString]
  · intro hash
    exact ⟨rfl, rfl, rfl, rfl⟩

/-- The G-clef character U+1D11E, which occupies two UTF-16 code units. -/
def gClef : JStr := [Char.ofNat 119070]

/-- A concrete stand-in digest function for closed evaluations. -/
def hashNil : JStr → JStr := fun _ => []

/-- C5 counterexample: for the single astral character U+1D11E the
analyzer reports `length = 2` (UTF-16 code units) while the frequency
map, built per code point, totals 1 — the two fields do not use the
same character granularity outside the BMP. -/
theorem C5_astral_counterexample :
    (analyzeString hashNil gClef).length = 2 ∧
    freqTotal (analyzeString hashNil gClef).character_frequency_map = 1 ∧
    (analyzeString hashNil gClef).length ≠
      freqTotal (analyzeString hashNil gClef).character_frequency_map := by
  exact ⟨by decide, by decide, by decide⟩

/-- C5 amended: `length` equals the total of the frequency counts plus
one extra unit for every character outside the BMP; the two agree
exactly on strings whose characters all lie in the BMP. -/
theorem C5_length_freq_amended :
    ∀ (hash : JStr → JStr) (s : JStr),
      (analyzeString hash s).length =
        freqTotal (analyzeString hash s).character_frequency_map +
          (s.filter (fun c => decide (65536 ≤ c.toNat))).length := by
  intro hash s
  show jsLength s = freqTotal (charFreqMap s) + _
  rw [freqTotal_charFreqMap, jsLength_split]

/-- C6: creating under an id the store already holds signals the
conflict (`null`) and leaves the store — hence the existing record's
value, properties and timestamp — untouched; at the HTTP level, once a
`POST /strings` has created a record for a value, posting the same
value again answers 409 and leaves the store as it was. -/
theorem C6_create_conflict :
    (∀ (st : Store) (id : JStr) (data : JStr × Props) (now : Nat) (e : Entry),
      storeLookup st id = some e → create id data now st = (none, st)) ∧
    (∀ (hash : JStr → JStr) (v : JStr) (st st1 : Store) (now1 now2 : Nat) (e : Entry),
      postStrings hash v st now1 = (Resp.okEntry 201 e, st1) →
      postStrings hash v st1 now2 = (Resp.err 409 existsMsg, st1)) := by
  constructor
  · intro st id data now e h
    unfold create
    by_cases hid : id = []
    · simp [hid]
    · simp [hid, h]
  · intro hash v st st1 now1 now2 e h
    unfold postStrings at h ⊢
    by_cases hid : (analyzeString hash v).sha256_hash = []
    · simp [create, hid] at h
    · cases hl : storeLookup st (analyzeString hash v).sha256_hash with
      | some e0 => simp [create, hid, hl] at h
      | none =>
        simp [create, hid, hl] at h
        have hl2 : storeLookup st1 (analyzeString hash v).sha256_hash =
            some ⟨(analyzeString hash v).sha256_hash, v, analyzeString hash v, now1⟩ := by
          rw [← h.2]
          exact storeLookup_append_self st _ _ hl
        simp [create, hid, hl2]

/-- A concrete digest function whose output is the one-character id `h`. -/
def hashH : JStr → JStr := fun _ => ['h']

/-- The id under which the witness store files its record. -/
def idW : JStr := ['h']

/-- Properties of the witness record. -/
def propsW : Props := analyzeString hashH ['a']

/-- The record the witness store already holds. -/
def entryW : Entry := ⟨idW, ['a'], propsW, 0⟩

/-- A one-record store. -/
def storeW : Store := [(idW, entryW)]

/-- The record a first `POST` of the value "ab" creates at time 3. -/
def entryW2 : Entry := ⟨['h'], ['a', 'b'], analyzeString hashH ['a', 'b'], 3⟩

/-- The store after that first `POST`. -/
def storeW2 : Store := [(['h'], entryW2)]

/-- C6 witness: a concrete occupied store rejects `create`, and the
second of two identical `POST`s answers 409 leaving the store as the
first left it. -/
theorem C6_create_conflict_witness :
    create idW (['c'], propsW) 9 storeW = (none, storeW) ∧
    postStrings hashH ['a', 'b'] storeW2 7 = (Resp.err 409 existsMsg, storeW2) :=
  ⟨C6_create_conflict.1 storeW idW (['c'], propsW) 9 entryW (by decide),
   C6_create_conflict.2 hashH ['a', 'b'] [] storeW2 3 7 entryW2 (by decide)⟩

/-- C7: whenever the lowercased query contains "single word" or
"one word", the parser's predicate set carries `word_count = 1`. -/
theorem C7_word_count_one (q : JStr)
    (h : (containsSub singleWordKw (jsLower q) || containsSub oneWordKw (jsLower q)) = true) :
    (parseNL q).word_count = some 1 := by
  unfold parseNL
  rw [stepVowel_word, stepContains_word, stepShorter_word, stepLonger_word]
  exact stepWord_set _ _ h

/-- The query "just one word please". -/
def oneWordWitQ : JStr := "just one word please".data

/-- C7 witness: a query containing "one word". -/
theorem C7_word_count_one_witness : (parseNL oneWordWitQ).word_count = some 1 :=
  C7_word_count_one oneWordWitQ (by decide)

/-- The query "letter z first vowel". -/
def vowelOverrideQ : JStr := "letter z first vowel".data

/-- The substring "letter z". -/
def letterZSub : JStr := "letter z".data

/-- C8 counterexample: the query "letter z first vowel" contains
"letter z" (and the contains-character regex captures `z`), yet the
later first-vowel rule overwrites the field, so the parser yields
`contains_character = a`, not `z`. -/
theorem C8_first_vowel_override :
    containsSub letterZSub (jsLower vowelOverrideQ) = true ∧
    matchCharAfter (jsLower vowelOverrideQ) = some 'z' ∧
    (parseNL vowelOverrideQ).contains_character = some 'a' ∧
    (parseNL vowelOverrideQ).contains_character ≠ some 'z' := by
  exact ⟨by decide, by decide, by decide, by decide⟩

/-- C8 amended: whenever the contains-character regex of the lowercased
query captures `c` — digits included — and the query does not also
contain "first vowel", the parser yields `contains_character = c`. -/
theorem C8_contains_char_amended (q : JStr) (c : Char)
    (h1 : matchCharAfter (jsLower q) = some c)
    (h2 : containsSub firstVowelKw (jsLower q) = false) :
    (parseNL q).contains_character = some c := by
  unfold parseNL
  rw [stepVowel_cc _ _ h2]
  exact stepContains_set _ _ c h1

/-- The query "contains 7". -/
def containsSevenQ : JStr := "contains 7".data

/-- C8 witness: a digit capture, "contains 7" yielding `7`. -/
theorem C8_contains_char_amended_witness :
    (parseNL containsSevenQ).contains_character = some '7' :=
  C8_contains_char_amended containsSevenQ '7' (by decide) (by decide)

/-- The parameter value "3.7". -/
def threeSevenS : JStr := "3.7".data

/-- C9 counterexample: `min_length=3.7` is not rejected — `parseInt`
keeps the integer prefix 3, so the request succeeds with a 200 and the
filter applied as 3, where the claim demands a 400. -/
theorem C9_parseint_counterexample :
    getStrings [] (QueryParams.mk none (some threeSevenS) none none none) =
      (Resp.okList 200 [] 0 (Filters.mk none (some 3) none none none), []) := by
  decide

/-- C9 amended: a numeric parameter is rejected with a 400 naming the
field exactly when `parseInt` yields `NaN` (no leading digits after
optional sign) or a negative number; values with a non-negative
integer prefix, such as "3.7" or "5abc", are accepted as that prefix.
Stated for each of the three fields with the other parameters absent
(validation reports the first failing field in source order). -/
theorem C9_validation_amended (st : Store) (s : JStr)
    (h : jsParseInt s = none ∨ ∃ n : Int, jsParseInt s = some n ∧ n < 0) :
    getStrings st (QueryParams.mk none (some s) none none none) =
      (Resp.err 400 (invalidPre ++ minMsg), st) ∧
    getStrings st (QueryParams.mk none none (some s) none none) =
      (Resp.err 400 (invalidPre ++ maxMsg), st) ∧
    getStrings st (QueryParams.mk none none none (some s) none) =
      (Resp.err 400 (invalidPre ++ wcMsg), st) := by
  have hc : ∀ msg : JStr, checkNum msg (some s) = .error msg := by
    intro msg
    rcases h with h | ⟨n, hn, hneg⟩
    · simp [checkNum, h]
    · simp [checkNum, hn, hneg]
  have hnone : ∀ msg : JStr, checkNum msg none = .ok none := fun _ => rfl
  refine ⟨?_, ?_, ?_⟩ <;>
    simp [getStrings, validateFilters, checkPal, checkCc, hc, hnone, Except.bind]

/-- The parameter value "abc". -/
def abcS : JStr := "abc".data

/-- C9 witness: the value "abc" (parseInt NaN) is rejected for each of
the three numeric fields. -/
theorem C9_validation_amended_witness :
    getStrings [] (QueryParams.mk none (some abcS) none none none) =
      (Resp.err 400 (invalidPre ++ minMsg), ([] : Store)) ∧
    getStrings [] (QueryParams.mk none none (some abcS) none none) =
      (Resp.err 400 (invalidPre ++ maxMsg), ([] : Store)) ∧
    getStrings [] (QueryParams.mk none none none (some abcS) none) =
      (Resp.err 400 (invalidPre ++ wcMsg), ([] : Store)) :=
  C9_validation_amended [] abcS (Or.inl (by decide))

/-- C10: the read-only operations — `getById`, `getAll`, the filtered
`GET /strings` handler and the natural-language filter handler — return
the store exactly as they received it, for every store, id, parameter
set and query. -/
theorem C10_readonly_ops (st : Store) (id : JStr) (qp : QueryParams)
    (q : Option JStr) :
    (getByIdOp st id).2 = st ∧ (getAllOp st).2 = st ∧
    (getStrings st qp).2 = st ∧ (nlHandler st q).2 = st := by
  refine ⟨rfl, rfl, ?_, ?_⟩
  · unfold getStrings
    cases validateFilters qp <;> rfl
  · unfold nlHandler
    cases q with
    | none => rfl
    | some s =>
      by_cases hne : s.isEmpty
      · simp [hne]
      · by_cases hcf : nlConflict (parseNL s)
        · simp [hne, hcf]
        · simp [hne, hcf]

end SAS
